import Mathlib

/-!
Shallow embedding of `src/exchange/currency_provider.py`.

The module defines a value type `SellBuy`, an error `RateNotFound`, and four
currency-rate providers (Mono, Privatbank, NationalBank, VKurse).  Each
provider issues one HTTP GET, checks the status, parses the JSON body and
scans it for a record matching the configured currency pair.

Embedding choices:
- Python floats are modelled as rationals (`ℚ`); every numeric literal in
  the claims is exactly representable, so no rounding questions arise.
- The HTTP fetch is an input: `get_rate` receives an `HttpResponse` whose
  body is either a parsed value or a JSON parse failure, so the order of
  status check, dictionary lookups and body parsing in the source is
  preserved.
- Fallible Python operations return `Except PyErr`; the error constructors
  mirror the Python exception classes that each operation can raise
  (`HTTPError` from `raise_for_status`, `KeyError` from a dict subscript,
  `ValueError` from `float` on a bad string, `TypeError` from `str + float`,
  and the repository exception `RateNotFound`).
- JSON scalar fields that the source passes to `float()` are modelled by
  `JVal`, a JSON number or a JSON string, because the upstream feeds mix
  the two (Mono sends rates as strings).
- Monadic sequencing is written as explicit `match` chains in source
  evaluation order, so a call on concrete data reduces by computation.
-/

/-- Rational shorthand used by the embedding. -/
abbrev Q := ℚ

/-- A JSON scalar field as the providers receive it: a number or a string. -/
inductive JVal where
  | num (q : Q)
  | str (s : String)
deriving DecidableEq, Repr

/-- Errors a `get_rate` call can surface, mirroring the Python exceptions. -/
inductive PyErr where
  | httpError (status : Nat)
  | jsonError (msg : String)
  | keyError (key : String)
  | valueError (s : String)
  | typeError
  | rateNotFound (msg : String)
deriving DecidableEq, Repr

/-- The `SellBuy` dataclass: a sell price and a buy price. -/
structure SellBuy where
  sell : Q
  buy : Q
deriving DecidableEq, Repr

/-- Equality on a fallible result is decidable componentwise. -/
instance {ε α : Type} [DecidableEq ε] [DecidableEq α] :
    DecidableEq (Except ε α) := fun a b =>
  match a, b with
  | Except.ok x, Except.ok y =>
      if h : x = y then Decidable.isTrue (congrArg Except.ok h)
      else Decidable.isFalse (fun hc => h (Except.ok.inj hc))
  | Except.error x, Except.error y =>
      if h : x = y then Decidable.isTrue (congrArg Except.error h)
      else Decidable.isFalse (fun hc => h (Except.error.inj hc))
  | Except.ok _, Except.error _ =>
      Decidable.isFalse (fun hc => Except.noConfusion hc)
  | Except.error _, Except.ok _ =>
      Decidable.isFalse (fun hc => Except.noConfusion hc)

/-- An HTTP response: a status code and a body that either parsed as JSON
into a value of shape `α` or failed to parse. -/
structure HttpResponse (α : Type) where
  status_code : Nat
  body : Except String α

/-- The `response.raise_for_status()` call of the requests library: it
raises `HTTPError` exactly for client and server error codes, 400–599. -/
def raiseForStatus {α : Type} (r : HttpResponse α) : Except PyErr Unit :=
  if 400 ≤ r.status_code ∧ r.status_code < 600 then
    Except.error (PyErr.httpError r.status_code)
  else
    Except.ok ()

/-- The `response.json()` call: yields the parsed body or a JSON error. -/
def jsonOf {α : Type} (r : HttpResponse α) : Except PyErr α :=
  match r.body with
  | Except.ok v => Except.ok v
  | Except.error m => Except.error (PyErr.jsonError m)

/-- A Python dict subscript `d[k]` on a string-keyed dict: the value when
the key is present, otherwise `KeyError`. -/
def dictSubscript {α : Type} (d : List (String × α)) (k : String) :
    Except PyErr α :=
  match d.lookup k with
  | some v => Except.ok v
  | none => Except.error (PyErr.keyError k)

/-- Numeric value of a list of decimal digit characters. -/
def digitsVal (cs : List Char) : Nat :=
  cs.foldl (fun n c => 10 * n + (c.toNat - 48)) 0

/-- Split a character list at the dots, keeping empty groups. -/
def splitDots : List Char → List (List Char)
  | [] => [[]]
  | c :: rest =>
      if c = '.' then [] :: splitDots rest
      else
        match splitDots rest with
        | g :: gs => (c :: g) :: gs
        | [] => [[c]]

/-- Decimal string parsing as Python `float` performs it on the feeds in
scope: an unsigned digit string with an optional fractional part. -/
def parseDecimal (s : String) : Option Q :=
  match splitDots s.toList with
  | [w] =>
      if !w.isEmpty && w.all Char.isDigit then
        some (digitsVal w : Q)
      else none
  | [w, f] =>
      if (!w.isEmpty || !f.isEmpty) && w.all Char.isDigit
          && f.all Char.isDigit then
        some ((digitsVal w : Q) + (digitsVal f : Q) / ((10 : Q) ^ f.length))
      else none
  | _ => none

/-- The Python builtin `float` applied to a JSON field: a number passes
through; a string is parsed as a decimal, raising `ValueError` when it does
not denote a number. -/
def pyFloat (v : JVal) : Except PyErr Q :=
  match v with
  | JVal.num q => Except.ok q
  | JVal.str s =>
      match parseDecimal s with
      | some q => Except.ok q
      | none => Except.error (PyErr.valueError s)

/-- The Python expression `v + 0.5` on a JSON field: defined on numbers,
a `TypeError` when the field is a string. -/
def pyAddHalf (v : JVal) : Except PyErr JVal :=
  match v with
  | JVal.num q => Except.ok (JVal.num (q + 1 / 2))
  | JVal.str _ => Except.error PyErr.typeError

/-- The f-string message of every `RateNotFound` raise site. -/
def rateNotFoundMsg (currency_from currency_to name : String) : String :=
  "Cannot find rate from " ++ currency_from ++ " to " ++ currency_to
    ++ " in provider " ++ name

/-- Provider configuration held on `self`, set by `ProviderBase.__init__`. -/
structure ProviderState where
  currency_from : String
  currency_to : String
deriving DecidableEq, Repr

/-- A record of the Mono feed: numeric ISO codes and two rate fields. -/
structure MonoRecord where
  currencyCodeA : Int
  currencyCodeB : Int
  rateSell : JVal
  rateBuy : JVal
deriving DecidableEq, Repr

def MonoProvider.name : String := "monobank"

/-- The fixed alphabetic-to-numeric code mapping of `MonoProvider`. -/
def MonoProvider.iso_from_country_code : List (String × Int) :=
  [("UAH", 980), ("USD", 840), ("EUR", 978)]

/-- The scan loop of `MonoProvider.get_rate`: return the converted first
record whose codes match, else raise `RateNotFound`.  On a match the
keyword arguments of the `SellBuy` call run in source order, `sell` from
`rateSell` first, then `buy` from `rateBuy`. -/
def MonoProvider.scan (currency_from currency_to : String)
    (codeA codeB : Int) : List MonoRecord → Except PyErr SellBuy
  | [] =>
      Except.error (PyErr.rateNotFound
        (rateNotFoundMsg currency_from currency_to MonoProvider.name))
  | currency :: rest =>
      if currency.currencyCodeA = codeA ∧ currency.currencyCodeB = codeB then
        match pyFloat currency.rateSell with
        | Except.error e => Except.error e
        | Except.ok s =>
            match pyFloat currency.rateBuy with
            | Except.error e => Except.error e
            | Except.ok b => Except.ok { sell := s, buy := b }
      else
        MonoProvider.scan currency_from currency_to codeA codeB rest

/-- `MonoProvider.get_rate`: status check, code translation of both
configured currencies, JSON parse, then the scan loop, in source order. -/
def MonoProvider.get_rate (currency_from currency_to : String)
    (response : HttpResponse (List MonoRecord)) : Except PyErr SellBuy :=
  match raiseForStatus response with
  | Except.error e => Except.error e
  | Except.ok _ =>
      match dictSubscript MonoProvider.iso_from_country_code currency_from with
      | Except.error e => Except.error e
      | Except.ok currency_from_code =>
          match dictSubscript MonoProvider.iso_from_country_code
              currency_to with
          | Except.error e => Except.error e
          | Except.ok currency_to_code =>
              match jsonOf response with
              | Except.error e => Except.error e
              | Except.ok records =>
                  MonoProvider.scan currency_from currency_to
                    currency_from_code currency_to_code records

/-- A record of the Privatbank feed: alphabetic codes and two rate fields. -/
structure PrivatRecord where
  ccy : String
  base_ccy : String
  buy : JVal
  sale : JVal
deriving DecidableEq, Repr

def PrivatbankProvider.name : String := "privatbank"

/-- The scan loop of `PrivatbankProvider.get_rate`: first record whose
`ccy` and `base_ccy` equal the configured pair, compared as exact strings;
on a match the `buy` keyword argument runs before `sell`. -/
def PrivatbankProvider.scan (currency_from currency_to : String) :
    List PrivatRecord → Except PyErr SellBuy
  | [] =>
      Except.error (PyErr.rateNotFound
        (rateNotFoundMsg currency_from currency_to PrivatbankProvider.name))
  | currency :: rest =>
      if currency.ccy = currency_from ∧ currency.base_ccy = currency_to then
        match pyFloat currency.buy with
        | Except.error e => Except.error e
        | Except.ok b =>
            match pyFloat currency.sale with
            | Except.error e => Except.error e
            | Except.ok s => Except.ok { sell := s, buy := b }
      else
        PrivatbankProvider.scan currency_from currency_to rest

/-- `PrivatbankProvider.get_rate`: status check, JSON parse, scan loop. -/
def PrivatbankProvider.get_rate (currency_from currency_to : String)
    (response : HttpResponse (List PrivatRecord)) : Except PyErr SellBuy :=
  match raiseForStatus response with
  | Except.error e => Except.error e
  | Except.ok _ =>
      match jsonOf response with
      | Except.error e => Except.error e
      | Except.ok records =>
          PrivatbankProvider.scan currency_from currency_to records

/-- A record of the NationalBank feed: a currency code and a single rate. -/
structure NBRecord where
  cc : String
  rate : JVal
deriving DecidableEq, Repr

def NationalBankProvider.name : String := "NationalBank"

/-- The scan loop of `NationalBankProvider.get_rate`: first record whose
`cc` equals the configured source currency; the keyword arguments of the
`SellBuy` call run in source order, `buy` before `sell`, and the `sell`
argument adds `0.5` to the raw field before the `float` cast. -/
def NationalBankProvider.scan (currency_from currency_to : String) :
    List NBRecord → Except PyErr SellBuy
  | [] =>
      Except.error (PyErr.rateNotFound
        (rateNotFoundMsg currency_from currency_to NationalBankProvider.name))
  | currency :: rest =>
      if currency.cc = currency_from then
        match pyFloat currency.rate with
        | Except.error e => Except.error e
        | Except.ok b =>
            match pyAddHalf currency.rate with
            | Except.error e => Except.error e
            | Except.ok raised =>
                match pyFloat raised with
                | Except.error e => Except.error e
                | Except.ok s => Except.ok { sell := s, buy := b }
      else
        NationalBankProvider.scan currency_from currency_to rest

/-- `NationalBankProvider.get_rate`: status check, JSON parse, scan loop. -/
def NationalBankProvider.get_rate (currency_from currency_to : String)
    (response : HttpResponse (List NBRecord)) : Except PyErr SellBuy :=
  match raiseForStatus response with
  | Except.error e => Except.error e
  | Except.ok _ =>
      match jsonOf response with
      | Except.error e => Except.error e
      | Except.ok records =>
          NationalBankProvider.scan currency_from currency_to records

/-- A record of the VKurse feed: the two rate fields of one currency. -/
structure VKurseRecord where
  sale : JVal
  buy : JVal
deriving DecidableEq, Repr

def VKurseProvider.name : String := "VKurse"

/-- The fixed currency-name mapping of `VKurseProvider`. -/
def VKurseProvider.country_code : List (String × String) :=
  [("USD", "Dollar"), ("EUR", "Euro")]

/-- `VKurseProvider.get_rate`: status check, name translation of the source
currency by dict subscript, JSON parse, then `.get` of the mapped key.  A
present record is a non-empty dict and hence truthy, so the truthiness test
of the source reduces to key presence. -/
def VKurseProvider.get_rate (currency_from currency_to : String)
    (response : HttpResponse (List (String × VKurseRecord))) :
    Except PyErr SellBuy :=
  match raiseForStatus response with
  | Except.error e => Except.error e
  | Except.ok _ =>
      match dictSubscript VKurseProvider.country_code currency_from with
      | Except.error e => Except.error e
      | Except.ok currency_from_code =>
          match jsonOf response with
          | Except.error e => Except.error e
          | Except.ok table =>
              match table.lookup currency_from_code with
              | some currency_data =>
                  match pyFloat currency_data.sale with
                  | Except.error e => Except.error e
                  | Except.ok s =>
                      match pyFloat currency_data.buy with
                      | Except.error e => Except.error e
                      | Except.ok b => Except.ok { sell := s, buy := b }
              | none =>
                  Except.error (PyErr.rateNotFound
                    (rateNotFoundMsg currency_from currency_to
                      VKurseProvider.name))

/-- Discriminator for the RateNotFound outcome of a get_rate call. -/
def resultIsRateNotFound : Except PyErr SellBuy → Bool
  | Except.error (PyErr.rateNotFound _) => true
  | _ => false

/-- State-passing form of `MonoProvider.get_rate`: the method body contains
no assignment to `self`, so the configuration after the call is the
configuration before it. -/
def MonoProvider.get_rate_state (st : ProviderState)
    (response : HttpResponse (List MonoRecord)) :
    Except PyErr SellBuy × ProviderState :=
  (MonoProvider.get_rate st.currency_from st.currency_to response, st)

/-- State-passing form of `PrivatbankProvider.get_rate`; no statement of the
method writes `self`. -/
def PrivatbankProvider.get_rate_state (st : ProviderState)
    (response : HttpResponse (List PrivatRecord)) :
    Except PyErr SellBuy × ProviderState :=
  (PrivatbankProvider.get_rate st.currency_from st.currency_to response, st)

/-- State-passing form of `NationalBankProvider.get_rate`; no statement of
the method writes `self`. -/
def NationalBankProvider.get_rate_state (st : ProviderState)
    (response : HttpResponse (List NBRecord)) :
    Except PyErr SellBuy × ProviderState :=
  (NationalBankProvider.get_rate st.currency_from st.currency_to response, st)

/-- State-passing form of `VKurseProvider.get_rate`; no statement of the
method writes `self`. -/
def VKurseProvider.get_rate_state (st : ProviderState)
    (response : HttpResponse (List (String × VKurseRecord))) :
    Except PyErr SellBuy × ProviderState :=
  (VKurseProvider.get_rate st.currency_from st.currency_to response, st)

/-- A successful status passes the requests status check. -/
theorem raiseForStatus_ok {α : Type} (r : HttpResponse α)
    (h : r.status_code < 400) : raiseForStatus r = Except.ok () := by
  unfold raiseForStatus
  rw [if_neg]
  omega

/-- A non-matching head record is skipped by the Mono scan. -/
theorem mono_scan_skip (cf ct : String) (a b : Int) (r : MonoRecord)
    (rest : List MonoRecord)
    (h : ¬(r.currencyCodeA = a ∧ r.currencyCodeB = b)) :
    MonoProvider.scan cf ct a b (r :: rest)
      = MonoProvider.scan cf ct a b rest := by
  simp only [MonoProvider.scan, if_neg h]

/-- The Mono scan of a list with no matching record raises `RateNotFound`. -/
theorem mono_scan_nomatch (cf ct : String) (a b : Int)
    (records : List MonoRecord)
    (h : ∀ r ∈ records, ¬(r.currencyCodeA = a ∧ r.currencyCodeB = b)) :
    MonoProvider.scan cf ct a b records
      = Except.error (PyErr.rateNotFound
          (rateNotFoundMsg cf ct MonoProvider.name)) := by
  induction records with
  | nil => rfl
  | cons r rest ih =>
      rw [mono_scan_skip cf ct a b r rest (h r (by simp))]
      exact ih (fun x hx => h x (by simp [hx]))

/-- The Mono scan returns the conversion of the first matching record. -/
theorem mono_scan_first (cf ct : String) (a b : Int)
    (pre post : List MonoRecord) (rec : MonoRecord) (qs qb : Q)
    (hpre : ∀ r ∈ pre, ¬(r.currencyCodeA = a ∧ r.currencyCodeB = b))
    (hA : rec.currencyCodeA = a) (hB : rec.currencyCodeB = b)
    (hs : pyFloat rec.rateSell = Except.ok qs)
    (hb : pyFloat rec.rateBuy = Except.ok qb) :
    MonoProvider.scan cf ct a b (pre ++ rec :: post)
      = Except.ok { sell := qs, buy := qb } := by
  induction pre with
  | nil =>
      simp only [List.nil_append, MonoProvider.scan, hA, hB, and_self, if_true,
        hs, hb]
  | cons r rest ih =>
      rw [List.cons_append,
        mono_scan_skip cf ct a b r _ (hpre r (by simp))]
      exact ih (fun x hx => hpre x (by simp [hx]))

/-- With a good status and mapped codes, Mono reduces to its scan loop. -/
theorem mono_get_rate_eq_scan (cf ct : String) (sc : Nat) (a b : Int)
    (records : List MonoRecord) (hsc : sc < 400)
    (hf : MonoProvider.iso_from_country_code.lookup cf = some a)
    (ht : MonoProvider.iso_from_country_code.lookup ct = some b) :
    MonoProvider.get_rate cf ct { status_code := sc, body := Except.ok records }
      = MonoProvider.scan cf ct a b records := by
  unfold MonoProvider.get_rate
  rw [raiseForStatus_ok _ hsc]
  simp [dictSubscript, hf, ht, jsonOf]

/-- A non-matching head record is skipped by the Privatbank scan. -/
theorem privat_scan_skip (cf ct : String) (r : PrivatRecord)
    (rest : List PrivatRecord) (h : ¬(r.ccy = cf ∧ r.base_ccy = ct)) :
    PrivatbankProvider.scan cf ct (r :: rest)
      = PrivatbankProvider.scan cf ct rest := by
  simp only [PrivatbankProvider.scan, if_neg h]

/-- The Privatbank scan with no matching record raises `RateNotFound`. -/
theorem privat_scan_nomatch (cf ct : String)
    (records : List PrivatRecord)
    (h : ∀ r ∈ records, ¬(r.ccy = cf ∧ r.base_ccy = ct)) :
    PrivatbankProvider.scan cf ct records
      = Except.error (PyErr.rateNotFound
          (rateNotFoundMsg cf ct PrivatbankProvider.name)) := by
  induction records with
  | nil => rfl
  | cons r rest ih =>
      rw [privat_scan_skip cf ct r rest (h r (by simp))]
      exact ih (fun x hx => h x (by simp [hx]))

/-- The Privatbank scan returns the conversion of the first match. -/
theorem privat_scan_first (cf ct : String)
    (pre post : List PrivatRecord) (rec : PrivatRecord) (qb qs : Q)
    (hpre : ∀ r ∈ pre, ¬(r.ccy = cf ∧ r.base_ccy = ct))
    (hc : rec.ccy = cf) (hbase : rec.base_ccy = ct)
    (hb : pyFloat rec.buy = Except.ok qb)
    (hs : pyFloat rec.sale = Except.ok qs) :
    PrivatbankProvider.scan cf ct (pre ++ rec :: post)
      = Except.ok { sell := qs, buy := qb } := by
  induction pre with
  | nil =>
      simp only [List.nil_append, PrivatbankProvider.scan, hc, hbase, and_self,
        if_true, hb, hs]
  | cons r rest ih =>
      rw [List.cons_append,
        privat_scan_skip cf ct r _ (hpre r (by simp))]
      exact ih (fun x hx => hpre x (by simp [hx]))

/-- With a good status, Privatbank reduces to its scan loop. -/
theorem privat_get_rate_eq_scan (cf ct : String) (sc : Nat)
    (records : List PrivatRecord) (hsc : sc < 400) :
    PrivatbankProvider.get_rate cf ct
        { status_code := sc, body := Except.ok records }
      = PrivatbankProvider.scan cf ct records := by
  unfold PrivatbankProvider.get_rate
  rw [raiseForStatus_ok _ hsc]
  simp [jsonOf]

/-- A non-matching head record is skipped by the NationalBank scan. -/
theorem nb_scan_skip (cf ct : String) (r : NBRecord)
    (rest : List NBRecord) (h : ¬(r.cc = cf)) :
    NationalBankProvider.scan cf ct (r :: rest)
      = NationalBankProvider.scan cf ct rest := by
  simp only [NationalBankProvider.scan, if_neg h]

/-- The NationalBank scan with no matching record raises `RateNotFound`. -/
theorem nb_scan_nomatch (cf ct : String)
    (records : List NBRecord) (h : ∀ r ∈ records, ¬(r.cc = cf)) :
    NationalBankProvider.scan cf ct records
      = Except.error (PyErr.rateNotFound
          (rateNotFoundMsg cf ct NationalBankProvider.name)) := by
  induction records with
  | nil => rfl
  | cons r rest ih =>
      rw [nb_scan_skip cf ct r rest (h r (by simp))]
      exact ih (fun x hx => h x (by simp [hx]))

/-- The NationalBank scan applied to a first match with a numeric rate. -/
theorem nb_scan_first (cf ct : String)
    (pre post : List NBRecord) (rec : NBRecord) (q : Q)
    (hpre : ∀ r ∈ pre, ¬(r.cc = cf)) (hc : rec.cc = cf)
    (hq : rec.rate = JVal.num q) :
    NationalBankProvider.scan cf ct (pre ++ rec :: post)
      = Except.ok { sell := q + 1 / 2, buy := q } := by
  induction pre with
  | nil =>
      simp only [List.nil_append, NationalBankProvider.scan, hc, if_true, hq,
        pyFloat, pyAddHalf]
  | cons r rest ih =>
      rw [List.cons_append,
        nb_scan_skip cf ct r _ (hpre r (by simp))]
      exact ih (fun x hx => hpre x (by simp [hx]))

/-- The NationalBank scan applied to a first match with a string rate: the
addition of `0.5` to a string raises `TypeError`. -/
theorem nb_scan_first_str (cf ct : String)
    (pre post : List NBRecord) (rec : NBRecord) (s : String) (q : Q)
    (hpre : ∀ r ∈ pre, ¬(r.cc = cf)) (hc : rec.cc = cf)
    (hq : rec.rate = JVal.str s) (hparse : parseDecimal s = some q) :
    NationalBankProvider.scan cf ct (pre ++ rec :: post)
      = Except.error PyErr.typeError := by
  induction pre with
  | nil =>
      simp only [List.nil_append, NationalBankProvider.scan, hc, if_true, hq,
        pyFloat, pyAddHalf, hparse]
  | cons r rest ih =>
      rw [List.cons_append,
        nb_scan_skip cf ct r _ (hpre r (by simp))]
      exact ih (fun x hx => hpre x (by simp [hx]))

/-- With a good status, NationalBank reduces to its scan loop. -/
theorem nb_get_rate_eq_scan (cf ct : String) (sc : Nat)
    (records : List NBRecord) (hsc : sc < 400) :
    NationalBankProvider.get_rate cf ct
        { status_code := sc, body := Except.ok records }
      = NationalBankProvider.scan cf ct records := by
  unfold NationalBankProvider.get_rate
  rw [raiseForStatus_ok _ hsc]
  simp [jsonOf]

/-- With a good status and a mapped source currency, VKurse reduces to the
lookup of the mapped key. -/
theorem vk_get_rate_eq_lookup (cf key ct : String) (sc : Nat)
    (table : List (String × VKurseRecord)) (hsc : sc < 400)
    (hf : VKurseProvider.country_code.lookup cf = some key) :
    VKurseProvider.get_rate cf ct
        { status_code := sc, body := Except.ok table }
      = match table.lookup key with
        | some currency_data =>
            match pyFloat currency_data.sale with
            | Except.error e => Except.error e
            | Except.ok s =>
                match pyFloat currency_data.buy with
                | Except.error e => Except.error e
                | Except.ok b => Except.ok { sell := s, buy := b }
        | none =>
            Except.error (PyErr.rateNotFound
              (rateNotFoundMsg cf ct VKurseProvider.name)) := by
  unfold VKurseProvider.get_rate
  rw [raiseForStatus_ok _ hsc]
  simp [dictSubscript, hf, jsonOf]

/-- An unmapped source currency makes the Mono dict subscript raise
`KeyError` before the body is ever parsed. -/
theorem mono_get_rate_unmapped_from (cf ct : String) (sc : Nat)
    (body : Except String (List MonoRecord)) (hsc : sc < 400)
    (hf : MonoProvider.iso_from_country_code.lookup cf = none) :
    MonoProvider.get_rate cf ct { status_code := sc, body := body }
      = Except.error (PyErr.keyError cf) := by
  unfold MonoProvider.get_rate
  rw [raiseForStatus_ok _ hsc]
  simp [dictSubscript, hf]

/-- An unmapped target currency makes the Mono dict subscript raise
`KeyError` before the body is ever parsed. -/
theorem mono_get_rate_unmapped_to (cf ct : String) (sc : Nat)
    (a : Int) (body : Except String (List MonoRecord)) (hsc : sc < 400)
    (hf : MonoProvider.iso_from_country_code.lookup cf = some a)
    (ht : MonoProvider.iso_from_country_code.lookup ct = none) :
    MonoProvider.get_rate cf ct { status_code := sc, body := body }
      = Except.error (PyErr.keyError ct) := by
  unfold MonoProvider.get_rate
  rw [raiseForStatus_ok _ hsc]
  simp [dictSubscript, hf, ht]

/-- An unmapped source currency makes the VKurse dict subscript raise
`KeyError` before the body is ever parsed. -/
theorem vk_get_rate_unmapped_from (cf ct : String) (sc : Nat)
    (body : Except String (List (String × VKurseRecord))) (hsc : sc < 400)
    (hf : VKurseProvider.country_code.lookup cf = none) :
    VKurseProvider.get_rate cf ct { status_code := sc, body := body }
      = Except.error (PyErr.keyError cf) := by
  unfold VKurseProvider.get_rate
  rw [raiseForStatus_ok _ hsc]
  simp [dictSubscript, hf]

/-- C1: for every provider variant, a parsed response with no record
matching the requested pair makes get_rate fail with RateNotFound whose
message is exactly the f-string with the pair and the provider name. -/
theorem spec_C1_no_match_message :
    (∀ (cf ct : String) (sc : Nat) (a b : Int) (records : List MonoRecord),
      sc < 400 →
      MonoProvider.iso_from_country_code.lookup cf = some a →
      MonoProvider.iso_from_country_code.lookup ct = some b →
      (∀ r ∈ records, ¬(r.currencyCodeA = a ∧ r.currencyCodeB = b)) →
      MonoProvider.get_rate cf ct
          { status_code := sc, body := Except.ok records }
        = Except.error (PyErr.rateNotFound ("Cannot find rate from " ++ cf
            ++ " to " ++ ct ++ " in provider " ++ MonoProvider.name)))
  ∧ (∀ (cf ct : String) (sc : Nat) (records : List PrivatRecord),
      sc < 400 →
      (∀ r ∈ records, ¬(r.ccy = cf ∧ r.base_ccy = ct)) →
      PrivatbankProvider.get_rate cf ct
          { status_code := sc, body := Except.ok records }
        = Except.error (PyErr.rateNotFound ("Cannot find rate from " ++ cf
            ++ " to " ++ ct ++ " in provider " ++ PrivatbankProvider.name)))
  ∧ (∀ (cf ct : String) (sc : Nat) (records : List NBRecord),
      sc < 400 →
      (∀ r ∈ records, ¬(r.cc = cf)) →
      NationalBankProvider.get_rate cf ct
          { status_code := sc, body := Except.ok records }
        = Except.error (PyErr.rateNotFound ("Cannot find rate from " ++ cf
            ++ " to " ++ ct ++ " in provider " ++ NationalBankProvider.name)))
  ∧ (∀ (cf key ct : String) (sc : Nat)
        (table : List (String × VKurseRecord)),
      sc < 400 →
      VKurseProvider.country_code.lookup cf = some key →
      table.lookup key = none →
      VKurseProvider.get_rate cf ct
          { status_code := sc, body := Except.ok table }
        = Except.error (PyErr.rateNotFound ("Cannot find rate from " ++ cf
            ++ " to " ++ ct ++ " in provider " ++ VKurseProvider.name))) := by
  refine ⟨?_, ?_, ?_, ?_⟩
  · intro cf ct sc a b records hsc hf ht hnone
    rw [mono_get_rate_eq_scan cf ct sc a b records hsc hf ht]
    exact mono_scan_nomatch cf ct a b records hnone
  · intro cf ct sc records hsc hnone
    rw [privat_get_rate_eq_scan cf ct sc records hsc]
    exact privat_scan_nomatch cf ct records hnone
  · intro cf ct sc records hsc hnone
    rw [nb_get_rate_eq_scan cf ct sc records hsc]
    exact nb_scan_nomatch cf ct records hnone
  · intro cf key ct sc table hsc hf hnone
    rw [vk_get_rate_eq_lookup cf key ct sc table hsc hf, hnone]
    rfl

/-- C1 witness: each provider at a concrete empty or non-matching response
produces the exact literal message. -/
theorem spec_C1_no_match_message_witness :
    MonoProvider.get_rate "USD" "UAH"
        { status_code := 200, body := Except.ok [] }
      = Except.error (PyErr.rateNotFound
          "Cannot find rate from USD to UAH in provider monobank")
  ∧ PrivatbankProvider.get_rate "USD" "UAH"
        { status_code := 200,
          body := Except.ok [ { ccy := "EUR", base_ccy := "UAH",
                                buy := JVal.num 30, sale := JVal.num 31 } ] }
      = Except.error (PyErr.rateNotFound
          "Cannot find rate from USD to UAH in provider privatbank")
  ∧ NationalBankProvider.get_rate "USD" "UAH"
        { status_code := 200,
          body := Except.ok [ { cc := "EUR", rate := JVal.num 30 } ] }
      = Except.error (PyErr.rateNotFound
          "Cannot find rate from USD to UAH in provider NationalBank")
  ∧ VKurseProvider.get_rate "USD" "UAH"
        { status_code := 200,
          body := Except.ok [("Euro", { sale := JVal.num 30,
                                        buy := JVal.num 29 })] }
      = Except.error (PyErr.rateNotFound
          "Cannot find rate from USD to UAH in provider VKurse") :=
  ⟨spec_C1_no_match_message.1 "USD" "UAH" 200 840 980 [] (by omega) rfl rfl
      (by simp),
   spec_C1_no_match_message.2.1 "USD" "UAH" 200 _ (by omega) (by decide),
   spec_C1_no_match_message.2.2.1 "USD" "UAH" 200 _ (by omega) (by decide),
   spec_C1_no_match_message.2.2.2 "USD" "Dollar" "UAH" 200 _ (by omega) rfl
      (by decide)⟩

/-- An ok result of the NationalBank scan does not depend on the target
currency, which only appears in the error message. -/
theorem nb_scan_ok_to_irrelevant (cf t t' : String)
    (records : List NBRecord) (v : SellBuy)
    (h : NationalBankProvider.scan cf t records = Except.ok v) :
    NationalBankProvider.scan cf t' records = Except.ok v := by
  induction records with
  | nil => simp [NationalBankProvider.scan] at h
  | cons r rest ih =>
      by_cases hc : r.cc = cf
      · simp only [NationalBankProvider.scan, hc, if_true] at h ⊢
        exact h
      · rw [nb_scan_skip cf t r rest hc] at h
        rw [nb_scan_skip cf t' r rest hc]
        exact ih h

/-- An ok result of NationalBank get_rate does not depend on the target
currency. -/
theorem nb_get_rate_ok_to_irrelevant (cf t t' : String)
    (response : HttpResponse (List NBRecord)) (v : SellBuy)
    (h : NationalBankProvider.get_rate cf t response = Except.ok v) :
    NationalBankProvider.get_rate cf t' response = Except.ok v := by
  unfold NationalBankProvider.get_rate at h ⊢
  cases hrs : raiseForStatus response with
  | error e =>
      simp only [hrs] at h
      exact absurd h (by simp)
  | ok u =>
      simp only [hrs] at h ⊢
      cases hj : jsonOf response with
      | error e =>
          simp only [hj] at h
          exact absurd h (by simp)
      | ok records =>
          simp only [hj] at h ⊢
          exact nb_scan_ok_to_irrelevant cf t t' records v h

/-- C2: Mono translates alphabetic codes through the fixed mapping, scans
for the first record with both numeric codes equal, and coerces the
string-typed rate fields with float; the concrete spec example returns
sell 27.5 and buy 27.0. -/
theorem spec_C2_mono_translation_and_coercion :
    MonoProvider.iso_from_country_code.lookup "UAH" = some 980
  ∧ MonoProvider.iso_from_country_code.lookup "USD" = some 840
  ∧ MonoProvider.iso_from_country_code.lookup "EUR" = some 978
  ∧ (∀ (cf ct : String) (sc : Nat) (a b : Int)
        (pre post : List MonoRecord) (rec : MonoRecord) (qs qb : Q),
      sc < 400 →
      MonoProvider.iso_from_country_code.lookup cf = some a →
      MonoProvider.iso_from_country_code.lookup ct = some b →
      (∀ r ∈ pre, ¬(r.currencyCodeA = a ∧ r.currencyCodeB = b)) →
      rec.currencyCodeA = a → rec.currencyCodeB = b →
      pyFloat rec.rateSell = Except.ok qs →
      pyFloat rec.rateBuy = Except.ok qb →
      MonoProvider.get_rate cf ct
          { status_code := sc, body := Except.ok (pre ++ rec :: post) }
        = Except.ok { sell := qs, buy := qb })
  ∧ MonoProvider.get_rate "USD" "UAH"
        { status_code := 200,
          body := Except.ok [ { currencyCodeA := 840, currencyCodeB := 980,
                                rateSell := JVal.str "27.5",
                                rateBuy := JVal.str "27.0" } ] }
      = Except.ok { sell := 27.5, buy := 27.0 } := by
  refine ⟨rfl, rfl, rfl, ?_, ?_⟩
  · intro cf ct sc a b pre post rec qs qb hsc hf ht hpre hA hB hs hb
    rw [mono_get_rate_eq_scan cf ct sc a b _ hsc hf ht]
    exact mono_scan_first cf ct a b pre post rec qs qb hpre hA hB hs hb
  · rw [show MonoProvider.get_rate "USD" "UAH"
        { status_code := 200,
          body := Except.ok [ { currencyCodeA := 840, currencyCodeB := 980,
                                rateSell := JVal.str "27.5",
                                rateBuy := JVal.str "27.0" } ] }
        = Except.ok { sell := (27 : Q) + (5 : Q) / ((10 : Q) ^ 1),
                      buy := (27 : Q) + (0 : Q) / ((10 : Q) ^ 1) } from rfl]
    norm_num

/-- C2 witness: the general first-match conjunct applied to a response
with a leading non-matching record. -/
theorem spec_C2_mono_translation_and_coercion_witness :
    MonoProvider.get_rate "USD" "UAH"
        { status_code := 200,
          body := Except.ok
            [ { currencyCodeA := 978, currencyCodeB := 980,
                rateSell := JVal.num 31, rateBuy := JVal.num 30 },
              { currencyCodeA := 840, currencyCodeB := 980,
                rateSell := JVal.str "27.5", rateBuy := JVal.str "27.0" } ] }
      = Except.ok { sell := 27.5, buy := 27 } :=
  spec_C2_mono_translation_and_coercion.2.2.2.1 "USD" "UAH" 200 840 980
    [ { currencyCodeA := 978, currencyCodeB := 980,
        rateSell := JVal.num 31, rateBuy := JVal.num 30 } ] []
    { currencyCodeA := 840, currencyCodeB := 980,
      rateSell := JVal.str "27.5", rateBuy := JVal.str "27.0" }
    27.5 27 (by omega) rfl rfl (by decide) rfl rfl
    (by rw [show pyFloat (JVal.str "27.5")
          = Except.ok ((27 : Q) + (5 : Q) / ((10 : Q) ^ 1)) from rfl]
        norm_num)
    (by rw [show pyFloat (JVal.str "27.0")
          = Except.ok ((27 : Q) + (0 : Q) / ((10 : Q) ^ 1)) from rfl]
        norm_num)

/-- C3: NationalBank matches on cc equal to the source currency only, the
target currency never influences a successful result, and a numeric first
match yields buy equal to the rate and sell equal to the rate plus 0.5;
the concrete spec example returns buy 27.0 and sell 27.5. -/
theorem spec_C3_nationalbank_markup :
    (∀ (cf t t' : String) (response : HttpResponse (List NBRecord))
        (v : SellBuy),
      NationalBankProvider.get_rate cf t response = Except.ok v →
      NationalBankProvider.get_rate cf t' response = Except.ok v)
  ∧ (∀ (cf ct : String) (sc : Nat) (pre post : List NBRecord)
        (rec : NBRecord) (q : Q),
      sc < 400 →
      (∀ r ∈ pre, ¬(r.cc = cf)) →
      rec.cc = cf → rec.rate = JVal.num q →
      NationalBankProvider.get_rate cf ct
          { status_code := sc, body := Except.ok (pre ++ rec :: post) }
        = Except.ok { sell := q + 1 / 2, buy := q })
  ∧ NationalBankProvider.get_rate "USD" "UAH"
        { status_code := 200,
          body := Except.ok [ { cc := "USD", rate := JVal.num 27 } ] }
      = Except.ok { sell := 27.5, buy := 27.0 } := by
  refine ⟨nb_get_rate_ok_to_irrelevant, ?_, ?_⟩
  · intro cf ct sc pre post rec q hsc hpre hc hq
    rw [nb_get_rate_eq_scan cf ct sc _ hsc]
    exact nb_scan_first cf ct pre post rec q hpre hc hq
  · rw [show NationalBankProvider.get_rate "USD" "UAH"
        { status_code := 200,
          body := Except.ok [ { cc := "USD", rate := JVal.num 27 } ] }
        = Except.ok { sell := (27 : Q) + 1 / 2, buy := 27 } from rfl]
    norm_num

/-- C3 witness: the markup conjunct applied to a concrete feed in which a
different currency precedes the match and the target is never present. -/
theorem spec_C3_nationalbank_markup_witness :
    NationalBankProvider.get_rate "USD" "EUR"
        { status_code := 200,
          body := Except.ok [ { cc := "PLN", rate := JVal.num 7 },
                              { cc := "USD", rate := JVal.num 27 } ] }
      = Except.ok { sell := 27 + 1 / 2, buy := 27 } :=
  spec_C3_nationalbank_markup.2.1 "USD" "EUR" 200
    [ { cc := "PLN", rate := JVal.num 7 } ] []
    { cc := "USD", rate := JVal.num 27 } 27 (by omega) (by decide) rfl rfl

/-- C4: Privatbank matches exactly on ccy equal to the source and base_ccy
equal to the target with no case normalization, and returns buy from the
buy field and sell from the sale field as parsed; a lowercase record does
not match an uppercase request. -/
theorem spec_C4_privatbank_exact_match :
    (∀ (cf ct : String) (sc : Nat) (pre post : List PrivatRecord)
        (rec : PrivatRecord) (qb qs : Q),
      sc < 400 →
      (∀ r ∈ pre, ¬(r.ccy = cf ∧ r.base_ccy = ct)) →
      rec.ccy = cf → rec.base_ccy = ct →
      pyFloat rec.buy = Except.ok qb →
      pyFloat rec.sale = Except.ok qs →
      PrivatbankProvider.get_rate cf ct
          { status_code := sc, body := Except.ok (pre ++ rec :: post) }
        = Except.ok { sell := qs, buy := qb })
  ∧ (∀ (cf ct : String) (sc : Nat) (records : List PrivatRecord),
      sc < 400 →
      (∀ r ∈ records, ¬(r.ccy = cf ∧ r.base_ccy = ct)) →
      PrivatbankProvider.get_rate cf ct
          { status_code := sc, body := Except.ok records }
        = Except.error (PyErr.rateNotFound
            (rateNotFoundMsg cf ct PrivatbankProvider.name)))
  ∧ PrivatbankProvider.get_rate "USD" "UAH"
        { status_code := 200,
          body := Except.ok [ { ccy := "usd", base_ccy := "UAH",
                                buy := JVal.num 27, sale := JVal.num 28 } ] }
      = Except.error (PyErr.rateNotFound
          (rateNotFoundMsg "USD" "UAH" PrivatbankProvider.name)) := by
  refine ⟨?_, ?_, ?_⟩
  · intro cf ct sc pre post rec qb qs hsc hpre hc hbase hb hs
    rw [privat_get_rate_eq_scan cf ct sc _ hsc]
    exact privat_scan_first cf ct pre post rec qb qs hpre hc
      hbase hb hs
  · intro cf ct sc records hsc hnone
    rw [privat_get_rate_eq_scan cf ct sc records hsc]
    exact privat_scan_nomatch cf ct records hnone
  · rw [privat_get_rate_eq_scan _ _ _ _ (by omega)]
    exact privat_scan_nomatch _ _ _ (by decide)

/-- C4 witness: the first-match conjunct at a concrete feed with exact
parsed values and no rounding. -/
theorem spec_C4_privatbank_exact_match_witness :
    PrivatbankProvider.get_rate "USD" "UAH"
        { status_code := 200,
          body := Except.ok
            [ { ccy := "EUR", base_ccy := "UAH",
                buy := JVal.num 30, sale := JVal.num 31 },
              { ccy := "USD", base_ccy := "UAH",
                buy := JVal.str "27.25", sale := JVal.str "27.75" } ] }
      = Except.ok { sell := 27.75, buy := 27.25 } :=
  spec_C4_privatbank_exact_match.1 "USD" "UAH" 200
    [ { ccy := "EUR", base_ccy := "UAH",
        buy := JVal.num 30, sale := JVal.num 31 } ] []
    { ccy := "USD", base_ccy := "UAH",
      buy := JVal.str "27.25", sale := JVal.str "27.75" }
    27.25 27.75 (by omega) (by decide) rfl rfl
    (by rw [show pyFloat (JVal.str "27.25")
          = Except.ok ((27 : Q) + (25 : Q) / ((10 : Q) ^ 2)) from rfl]
        norm_num)
    (by rw [show pyFloat (JVal.str "27.75")
          = Except.ok ((27 : Q) + (75 : Q) / ((10 : Q) ^ 2)) from rfl]
        norm_num)

/-- A float cast never raises RateNotFound. -/
theorem pyFloat_ne_rateNotFound (v : JVal) (m : String) :
    pyFloat v ≠ Except.error (PyErr.rateNotFound m) := by
  unfold pyFloat
  cases v with
  | num q => simp
  | str s => cases hp : parseDecimal s <;> simp [hp]

/-- The conversion branch of the VKurse lookup never raises RateNotFound:
it yields the converted pair or a ValueError from a float cast. -/
theorem vkConversion_ne_rateNotFound (d : VKurseRecord) (m : String) :
    (match pyFloat d.sale with
     | Except.error e => Except.error e
     | Except.ok s =>
         match pyFloat d.buy with
         | Except.error e => Except.error e
         | Except.ok b => Except.ok { sell := s, buy := b }
     : Except PyErr SellBuy)
      ≠ Except.error (PyErr.rateNotFound m) := by
  cases hps : pyFloat d.sale with
  | error e =>
      intro hc
      have he : e = PyErr.rateNotFound m := Except.error.inj hc
      exact pyFloat_ne_rateNotFound d.sale m (by rw [hps, he])
  | ok s =>
      cases hpb : pyFloat d.buy with
      | error e =>
          intro hc
          have he : e = PyErr.rateNotFound m := Except.error.inj hc
          exact pyFloat_ne_rateNotFound d.buy m (by rw [hpb, he])
      | ok b =>
          intro hc
          exact Except.noConfusion hc

/-- C5 counterexample: requesting the unmapped currency GBP from VKurse
raises KeyError from the mapping subscript itself, not RateNotFound, so
the unmapped case does not fall through to the not-found key lookup. -/
theorem spec_C5_counterexample :
    VKurseProvider.get_rate "GBP" "UAH"
        { status_code := 200, body := Except.ok [] }
      = Except.error (PyErr.keyError "GBP")
  ∧ resultIsRateNotFound (VKurseProvider.get_rate "GBP" "UAH"
        { status_code := 200, body := Except.ok [] }) = false := by
  constructor <;> rfl

/-- C5 amended: for a source currency present in the name mapping, VKurse
raises RateNotFound exactly when the response lacks the mapped key; a
source currency absent from the mapping raises KeyError from the mapping
subscript before any response lookup. -/
theorem spec_C5_amended_vkurse_triggers :
    (∀ (cf key ct : String) (sc : Nat)
        (table : List (String × VKurseRecord)),
      sc < 400 →
      VKurseProvider.country_code.lookup cf = some key →
      (VKurseProvider.get_rate cf ct
            { status_code := sc, body := Except.ok table }
          = Except.error (PyErr.rateNotFound
              (rateNotFoundMsg cf ct VKurseProvider.name))
        ↔ table.lookup key = none))
  ∧ (∀ (cf ct : String) (sc : Nat)
        (body : Except String (List (String × VKurseRecord))),
      sc < 400 →
      VKurseProvider.country_code.lookup cf = none →
      VKurseProvider.get_rate cf ct { status_code := sc, body := body }
        = Except.error (PyErr.keyError cf)) := by
  constructor
  · intro cf key ct sc table hsc hf
    rw [vk_get_rate_eq_lookup cf key ct sc table hsc hf]
    cases hl : table.lookup key with
    | none => simp
    | some d =>
        simp only [hl]
        constructor
        · intro hcontr
          exact absurd hcontr (vkConversion_ne_rateNotFound d _)
        · intro hcontr
          exact absurd hcontr (by simp)
  · exact vk_get_rate_unmapped_from

/-- C5 amended witness: a mapped currency with the key present is not a
RateNotFound failure, with the key absent it is, and an unmapped currency
raises KeyError. -/
theorem spec_C5_amended_vkurse_triggers_witness :
    (VKurseProvider.get_rate "EUR" "UAH"
        { status_code := 200,
          body := Except.ok [("Euro", { sale := JVal.num 30,
                                        buy := JVal.num 29 })] }
      = Except.error (PyErr.rateNotFound
          (rateNotFoundMsg "EUR" "UAH" VKurseProvider.name))
      ↔ False)
  ∧ (VKurseProvider.get_rate "EUR" "UAH"
        { status_code := 200,
          body := Except.ok [("Dollar", { sale := JVal.num 41,
                                          buy := JVal.num 40 })] }
      = Except.error (PyErr.rateNotFound
          (rateNotFoundMsg "EUR" "UAH" VKurseProvider.name))
      ↔ True)
  ∧ VKurseProvider.get_rate "PLN" "UAH"
        { status_code := 200, body := Except.error "not json" }
      = Except.error (PyErr.keyError "PLN") :=
  ⟨by
    have h := spec_C5_amended_vkurse_triggers.1 "EUR" "Euro" "UAH" 200
      [("Euro", { sale := JVal.num 30, buy := JVal.num 29 })]
      (by omega) rfl
    rw [h]
    simp,
   by
    have h := spec_C5_amended_vkurse_triggers.1 "EUR" "Euro" "UAH" 200
      [("Dollar", { sale := JVal.num 41, buy := JVal.num 40 })]
      (by omega) rfl
    rw [h]
    simp,
   spec_C5_amended_vkurse_triggers.2 "PLN" "UAH" 200 (Except.error "not json")
     (by omega) rfl⟩

/-- C6: for Mono and VKurse, a requested currency absent from the fixed
translation mapping fails with a raw KeyError from the dict subscript, not
RateNotFound, and never yields a SellBuy value. -/
theorem spec_C6_unmapped_currency_keyerror :
    (∀ (cf ct : String) (sc : Nat)
        (body : Except String (List MonoRecord)),
      sc < 400 →
      MonoProvider.iso_from_country_code.lookup cf = none →
      MonoProvider.get_rate cf ct { status_code := sc, body := body }
        = Except.error (PyErr.keyError cf))
  ∧ (∀ (cf ct : String) (sc : Nat) (a : Int)
        (body : Except String (List MonoRecord)),
      sc < 400 →
      MonoProvider.iso_from_country_code.lookup cf = some a →
      MonoProvider.iso_from_country_code.lookup ct = none →
      MonoProvider.get_rate cf ct { status_code := sc, body := body }
        = Except.error (PyErr.keyError ct))
  ∧ (∀ (cf ct : String) (sc : Nat)
        (body : Except String (List (String × VKurseRecord))),
      sc < 400 →
      VKurseProvider.country_code.lookup cf = none →
      VKurseProvider.get_rate cf ct { status_code := sc, body := body }
        = Except.error (PyErr.keyError cf)) := by
  refine ⟨?_, ?_, vk_get_rate_unmapped_from⟩
  · intro cf ct sc body hsc hf
    exact mono_get_rate_unmapped_from cf ct sc body hsc hf
  · intro cf ct sc a body hsc hf ht
    exact mono_get_rate_unmapped_to cf ct sc a body hsc hf ht

/-- C6 witness: GBP is unmapped for both providers and fails with KeyError
even when the body holds matching-looking data. -/
theorem spec_C6_unmapped_currency_keyerror_witness :
    MonoProvider.get_rate "GBP" "UAH"
        { status_code := 200,
          body := Except.ok [ { currencyCodeA := 826, currencyCodeB := 980,
                                rateSell := JVal.num 34,
                                rateBuy := JVal.num 33 } ] }
      = Except.error (PyErr.keyError "GBP")
  ∧ MonoProvider.get_rate "USD" "GBP"
        { status_code := 200, body := Except.ok [] }
      = Except.error (PyErr.keyError "GBP")
  ∧ VKurseProvider.get_rate "GBP" "UAH"
        { status_code := 200,
          body := Except.ok [("Dollar", { sale := JVal.num 41,
                                          buy := JVal.num 40 })] }
      = Except.error (PyErr.keyError "GBP") :=
  ⟨spec_C6_unmapped_currency_keyerror.1 "GBP" "UAH" 200 _ (by omega) rfl,
   spec_C6_unmapped_currency_keyerror.2.1 "USD" "GBP" 200 840 _ (by omega)
     rfl rfl,
   spec_C6_unmapped_currency_keyerror.2.2 "GBP" "UAH" 200 _ (by omega) rfl⟩

/-- C7: an error HTTP status makes every provider fail with the HTTPError
carrying that status, for every body, parseable or not. -/
theorem spec_C7_transport_error_propagation :
    ∀ (sc : Nat), 400 ≤ sc → sc < 600 →
      (∀ (cf ct : String) (body : Except String (List MonoRecord)),
        MonoProvider.get_rate cf ct { status_code := sc, body := body }
          = Except.error (PyErr.httpError sc))
    ∧ (∀ (cf ct : String) (body : Except String (List PrivatRecord)),
        PrivatbankProvider.get_rate cf ct { status_code := sc, body := body }
          = Except.error (PyErr.httpError sc))
    ∧ (∀ (cf ct : String) (body : Except String (List NBRecord)),
        NationalBankProvider.get_rate cf ct
            { status_code := sc, body := body }
          = Except.error (PyErr.httpError sc))
    ∧ (∀ (cf ct : String)
          (body : Except String (List (String × VKurseRecord))),
        VKurseProvider.get_rate cf ct { status_code := sc, body := body }
          = Except.error (PyErr.httpError sc)) := by
  intro sc h4 h6
  have hraise : ∀ (α : Type) (body : Except String α),
      raiseForStatus { status_code := sc, body := body }
        = Except.error (PyErr.httpError sc) := by
    intro α body
    unfold raiseForStatus
    rw [if_pos]
    exact ⟨h4, h6⟩
  refine ⟨?_, ?_, ?_, ?_⟩
  · intro cf ct body
    unfold MonoProvider.get_rate
    rw [hraise _ body]
  · intro cf ct body
    unfold PrivatbankProvider.get_rate
    rw [hraise _ body]
  · intro cf ct body
    unfold NationalBankProvider.get_rate
    rw [hraise _ body]
  · intro cf ct body
    unfold VKurseProvider.get_rate
    rw [hraise _ body]

/-- C7 witness: a 404 with an unparseable body fails with HTTPError 404 on
all four providers. -/
theorem spec_C7_transport_error_propagation_witness :
    MonoProvider.get_rate "USD" "UAH"
        { status_code := 404, body := Except.error "not json" }
      = Except.error (PyErr.httpError 404)
  ∧ PrivatbankProvider.get_rate "USD" "UAH"
        { status_code := 404, body := Except.error "not json" }
      = Except.error (PyErr.httpError 404)
  ∧ NationalBankProvider.get_rate "USD" "UAH"
        { status_code := 404, body := Except.error "not json" }
      = Except.error (PyErr.httpError 404)
  ∧ VKurseProvider.get_rate "USD" "UAH"
        { status_code := 404, body := Except.error "not json" }
      = Except.error (PyErr.httpError 404) :=
  ⟨(spec_C7_transport_error_propagation 404 (by omega) (by omega)).1
      "USD" "UAH" _,
   (spec_C7_transport_error_propagation 404 (by omega) (by omega)).2.1
      "USD" "UAH" _,
   (spec_C7_transport_error_propagation 404 (by omega) (by omega)).2.2.1
      "USD" "UAH" _,
   (spec_C7_transport_error_propagation 404 (by omega) (by omega)).2.2.2
      "USD" "UAH" _⟩

/-- A matching head record determines the Mono scan regardless of the
tail. -/
theorem mono_scan_cons_match (cf ct : String) (a b : Int)
    (rec : MonoRecord) (rest : List MonoRecord)
    (h : rec.currencyCodeA = a ∧ rec.currencyCodeB = b) :
    MonoProvider.scan cf ct a b (rec :: rest)
      = MonoProvider.scan cf ct a b [rec] := by
  simp only [MonoProvider.scan, if_pos h]

/-- A matching head record determines the Privatbank scan regardless of
the tail. -/
theorem privat_scan_cons_match (cf ct : String)
    (rec : PrivatRecord) (rest : List PrivatRecord)
    (h : rec.ccy = cf ∧ rec.base_ccy = ct) :
    PrivatbankProvider.scan cf ct (rec :: rest)
      = PrivatbankProvider.scan cf ct [rec] := by
  simp only [PrivatbankProvider.scan, if_pos h]

/-- A matching head record determines the NationalBank scan regardless of
the tail. -/
theorem nb_scan_cons_match (cf ct : String)
    (rec : NBRecord) (rest : List NBRecord) (h : rec.cc = cf) :
    NationalBankProvider.scan cf ct (rec :: rest)
      = NationalBankProvider.scan cf ct [rec] := by
  simp only [NationalBankProvider.scan, if_pos h]

/-- C8: for the three array-scanning providers, the result on a response
whose earliest matching record is rec equals the result on the response
holding rec alone, so every later record is ignored. -/
theorem spec_C8_earliest_match_wins :
    (∀ (cf ct : String) (sc : Nat) (a b : Int)
        (pre post : List MonoRecord) (rec : MonoRecord),
      sc < 400 →
      MonoProvider.iso_from_country_code.lookup cf = some a →
      MonoProvider.iso_from_country_code.lookup ct = some b →
      (∀ r ∈ pre, ¬(r.currencyCodeA = a ∧ r.currencyCodeB = b)) →
      rec.currencyCodeA = a → rec.currencyCodeB = b →
      MonoProvider.get_rate cf ct
          { status_code := sc, body := Except.ok (pre ++ rec :: post) }
        = MonoProvider.get_rate cf ct
            { status_code := sc, body := Except.ok [rec] })
  ∧ (∀ (cf ct : String) (sc : Nat) (pre post : List PrivatRecord)
        (rec : PrivatRecord),
      sc < 400 →
      (∀ r ∈ pre, ¬(r.ccy = cf ∧ r.base_ccy = ct)) →
      rec.ccy = cf → rec.base_ccy = ct →
      PrivatbankProvider.get_rate cf ct
          { status_code := sc, body := Except.ok (pre ++ rec :: post) }
        = PrivatbankProvider.get_rate cf ct
            { status_code := sc, body := Except.ok [rec] })
  ∧ (∀ (cf ct : String) (sc : Nat) (pre post : List NBRecord)
        (rec : NBRecord),
      sc < 400 →
      (∀ r ∈ pre, ¬(r.cc = cf)) →
      rec.cc = cf →
      NationalBankProvider.get_rate cf ct
          { status_code := sc, body := Except.ok (pre ++ rec :: post) }
        = NationalBankProvider.get_rate cf ct
            { status_code := sc, body := Except.ok [rec] }) := by
  refine ⟨?_, ?_, ?_⟩
  · intro cf ct sc a b pre post rec hsc hf ht hpre hA hB
    rw [mono_get_rate_eq_scan cf ct sc a b _ hsc hf ht,
      mono_get_rate_eq_scan cf ct sc a b _ hsc hf ht]
    induction pre with
    | nil =>
        rw [List.nil_append]
        exact mono_scan_cons_match cf ct a b rec post ⟨hA, hB⟩
    | cons r rest ih =>
        rw [List.cons_append,
          mono_scan_skip cf ct a b r _ (hpre r (by simp))]
        exact ih (fun x hx => hpre x (by simp [hx]))
  · intro cf ct sc pre post rec hsc hpre hc hbase
    rw [privat_get_rate_eq_scan cf ct sc _ hsc,
      privat_get_rate_eq_scan cf ct sc _ hsc]
    induction pre with
    | nil =>
        rw [List.nil_append]
        exact privat_scan_cons_match cf ct rec post ⟨hc, hbase⟩
    | cons r rest ih =>
        rw [List.cons_append,
          privat_scan_skip cf ct r _ (hpre r (by simp))]
        exact ih (fun x hx => hpre x (by simp [hx]))
  · intro cf ct sc pre post rec hsc hpre hc
    rw [nb_get_rate_eq_scan cf ct sc _ hsc,
      nb_get_rate_eq_scan cf ct sc _ hsc]
    induction pre with
    | nil =>
        rw [List.nil_append]
        exact nb_scan_cons_match cf ct rec post hc
    | cons r rest ih =>
        rw [List.cons_append,
          nb_scan_skip cf ct r _ (hpre r (by simp))]
        exact ih (fun x hx => hpre x (by simp [hx]))

/-- C8 witness: a later matching Mono record is ignored in favour of the
earliest one, and likewise for Privatbank and NationalBank. -/
theorem spec_C8_earliest_match_wins_witness :
    MonoProvider.get_rate "USD" "UAH"
        { status_code := 200,
          body := Except.ok
            [ { currencyCodeA := 840, currencyCodeB := 980,
                rateSell := JVal.num 27, rateBuy := JVal.num 26 },
              { currencyCodeA := 840, currencyCodeB := 980,
                rateSell := JVal.num 99, rateBuy := JVal.num 98 } ] }
      = MonoProvider.get_rate "USD" "UAH"
          { status_code := 200,
            body := Except.ok
              [ { currencyCodeA := 840, currencyCodeB := 980,
                  rateSell := JVal.num 27, rateBuy := JVal.num 26 } ] }
  ∧ PrivatbankProvider.get_rate "USD" "UAH"
        { status_code := 200,
          body := Except.ok
            [ { ccy := "USD", base_ccy := "UAH",
                buy := JVal.num 27, sale := JVal.num 28 },
              { ccy := "USD", base_ccy := "UAH",
                buy := JVal.num 90, sale := JVal.num 91 } ] }
      = PrivatbankProvider.get_rate "USD" "UAH"
          { status_code := 200,
            body := Except.ok
              [ { ccy := "USD", base_ccy := "UAH",
                  buy := JVal.num 27, sale := JVal.num 28 } ] }
  ∧ NationalBankProvider.get_rate "USD" "UAH"
        { status_code := 200,
          body := Except.ok [ { cc := "USD", rate := JVal.num 27 },
                              { cc := "USD", rate := JVal.num 90 } ] }
      = NationalBankProvider.get_rate "USD" "UAH"
          { status_code := 200,
            body := Except.ok [ { cc := "USD", rate := JVal.num 27 } ] } :=
  ⟨spec_C8_earliest_match_wins.1 "USD" "UAH" 200 840 980 [] _ _ (by omega)
      rfl rfl (by simp) rfl rfl,
   spec_C8_earliest_match_wins.2.1 "USD" "UAH" 200 [] _ _ (by omega)
      (by simp) rfl rfl,
   spec_C8_earliest_match_wins.2.2 "USD" "UAH" 200 [] _ _ (by omega)
      (by simp) rfl⟩

/-- C9: NationalBank adds 0.5 to the raw rate field before the float cast,
so a matching record whose rate is a numeric string fails with TypeError
instead of returning a pair. -/
theorem spec_C9_nb_string_rate_typeerror :
    ∀ (cf ct : String) (sc : Nat) (pre post : List NBRecord)
      (rec : NBRecord) (s : String) (q : Q),
      sc < 400 →
      (∀ r ∈ pre, ¬(r.cc = cf)) →
      rec.cc = cf → rec.rate = JVal.str s → parseDecimal s = some q →
      NationalBankProvider.get_rate cf ct
          { status_code := sc, body := Except.ok (pre ++ rec :: post) }
        = Except.error PyErr.typeError := by
  intro cf ct sc pre post rec s q hsc hpre hc hrate hparse
  rw [nb_get_rate_eq_scan cf ct sc _ hsc]
  exact nb_scan_first_str cf ct pre post rec s q hpre hc
    hrate hparse

/-- C9 witness: the Mono-style string rate 27.0 makes NationalBank fail
with TypeError. -/
theorem spec_C9_nb_string_rate_typeerror_witness :
    NationalBankProvider.get_rate "USD" "UAH"
        { status_code := 200,
          body := Except.ok [ { cc := "USD", rate := JVal.str "27.0" } ] }
      = Except.error PyErr.typeError :=
  spec_C9_nb_string_rate_typeerror "USD" "UAH" 200 [] []
    { cc := "USD", rate := JVal.str "27.0" } "27.0" 27 (by omega) (by simp)
    rfl rfl
    (by rw [show parseDecimal "27.0"
          = some ((27 : Q) + (0 : Q) / ((10 : Q) ^ 1)) from rfl]
        norm_num)

/-- C10: no get_rate call changes the configuration, the provider names,
or the class-level translation mappings. -/
theorem spec_C10_no_config_mutation :
    (∀ (st : ProviderState) (response : HttpResponse (List MonoRecord)),
      (MonoProvider.get_rate_state st response).2 = st)
  ∧ (∀ (st : ProviderState) (response : HttpResponse (List PrivatRecord)),
      (PrivatbankProvider.get_rate_state st response).2 = st)
  ∧ (∀ (st : ProviderState) (response : HttpResponse (List NBRecord)),
      (NationalBankProvider.get_rate_state st response).2 = st)
  ∧ (∀ (st : ProviderState)
        (response : HttpResponse (List (String × VKurseRecord))),
      (VKurseProvider.get_rate_state st response).2 = st)
  ∧ MonoProvider.iso_from_country_code
      = [("UAH", 980), ("USD", 840), ("EUR", 978)]
  ∧ VKurseProvider.country_code = [("USD", "Dollar"), ("EUR", "Euro")]
  ∧ MonoProvider.name = "monobank"
  ∧ PrivatbankProvider.name = "privatbank"
  ∧ NationalBankProvider.name = "NationalBank"
  ∧ VKurseProvider.name = "VKurse" :=
  ⟨fun _ _ => rfl, fun _ _ => rfl, fun _ _ => rfl, fun _ _ => rfl,
   rfl, rfl, rfl, rfl, rfl, rfl⟩
